import Mathlib

/-!
Verification of the real-time session orchestration and echo-suppressed
canvas synchronization core of the duke-hack repository.

Two sub-models are embedded, each transcribed from the TypeScript source:

* the canvas echo suppressor of `frontend/src/App.tsx`
  (`handleWebSocketMessage`, `handleCanvasChange`, `describeCanvasChanges`);
* the realtime client of `client/src/hooks/useRealtimeSession.ts`
  (`messageHandler`, `handleFunctionCall`, `stopSession`) together with the
  event-log store of `client/src/store/realtimeStore.ts` (`addEvent`).

JavaScript timers (`setTimeout`/`clearTimeout`) are modelled by explicit
pending-timer fields: scheduling a timer records it in the state, clearing
removes it, and a separate `fire…` function applies the callback body to the
state that is current at fire time — exactly mirroring the closures in the
source.  JavaScript truthiness of optional strings (`undefined` and `""` are
falsy) is modelled by `truthyS`.
-/

namespace DukeHack

/-- JS truthiness of an optional string: `undefined`/absent and `""` are
falsy, every other string is truthy. -/
def truthyS : Option String → Bool
  | none => false
  | some s => !(s == "")

/-! ## Canvas echo suppressor (frontend/src/App.tsx) -/

/-- The identity-relevant projection of an Excalidraw element: the diff in
`describeCanvasChanges` (App.tsx lines 454-487) only reads `id`, `type` and
`version`. -/
structure FElement where
  id : String
  type : String
  version : Nat
deriving DecidableEq, Repr

/-- Lookup with the `Map.get` semantics of `new Map(entries)`: for duplicate keys the last
entry wins, so lookup scans from the rear. -/
def lastFind (l : List FElement) (i : String) : Option FElement :=
  l.reverse.find? (fun e => e.id == i)

/-- Transcribes `currentElements.filter((el) => !prevMap.has(el.id))` (App.tsx line 461). -/
def addedOf (curr prev : List FElement) : List FElement :=
  curr.filter (fun el => !(prev.any (fun p => p.id == el.id)))

/-- Transcribes `previousElements.filter((el) => !currMap.has(el.id))` (App.tsx line 462). -/
def removedOf (curr prev : List FElement) : List FElement :=
  prev.filter (fun el => !(curr.any (fun c => c.id == el.id)))

/-- Transcribes `currentElements.filter((el) => { const prev = prevMap.get(el.id);
return prev && prev.version !== el.version; })` (App.tsx lines 463-466). -/
def modifiedOf (curr prev : List FElement) : List FElement :=
  curr.filter (fun el =>
    match lastFind prev el.id with
    | some p => !(p.version == el.version)
    | none => false)

/-- Transcribes `describeCanvasChanges` (App.tsx lines 454-487): classify elements into
added / removed / modified against the previous snapshot and compose a single
human-readable summary, or `none` when nothing changed. -/
def describeCanvasChanges (curr prev : List FElement) : Option String :=
  let added := addedOf curr prev
  let removed := removedOf curr prev
  let modified := modifiedOf curr prev
  let changes : List String :=
    (if added.length > 0 then
      ["Added " ++ toString added.length ++ " element(s): " ++
        String.intercalate ", " (added.map (fun el => el.type))]
    else []) ++
    (if removed.length > 0 then
      ["Removed " ++ toString removed.length ++ " element(s)"] else []) ++
    (if modified.length > 0 then
      ["Modified " ++ toString modified.length ++ " element(s)"] else [])
  if changes.length == 0 then none
  else some ("User made changes to canvas: " ++ String.intercalate "; " changes)

/-- State of the echo suppressor: the refs of App.tsx.
`lastElements` is `lastElementsRef.current` (the `CanvasBaseline`);
`changeTimeout` models `changeTimeoutRef.current`, carrying the `elements`
argument captured by the scheduled debounce closure;
`isApplyingRemoteUpdate` is `isApplyingRemoteUpdateRef.current` (the
`RemoteUpdateWindow` flag); `remoteTimeout` records whether a window-expiry
timer is pending (`remoteUpdateTimeoutRef.current`). -/
structure CanvasState where
  lastElements : List FElement
  changeTimeout : Option (List FElement)
  isApplyingRemoteUpdate : Bool
  remoteTimeout : Bool
deriving DecidableEq, Repr

/-- Outward emissions of the echo suppressor: the two delivery channels of a
user diff (`sendCanvasUpdateViaPostMessage` and
`sendCanvasUpdateViaWebSocket`, App.tsx lines 489-527), both carrying the
same description string. -/
inductive CanvasEmit where
  | postMessage (description : String)
  | wsSend (description : String)
deriving DecidableEq, Repr

/-- Duration (ms) of the remote update window (App.tsx lines 275, 377, 756:
`setTimeout(..., 500)`). -/
def remoteWindowMs : Nat := 500

/-- Duration (ms) of the user-diff debounce (App.tsx line 666:
`setTimeout(..., 2000)`). -/
def debounceMs : Nat := 2000

/-- Message types that `handleWebSocketMessage` marks as remote-origin
(App.tsx lines 257-264). -/
def remoteMarkTypes : List String :=
  ["initial_elements", "element_created", "element_updated",
   "element_deleted", "elements_batch_created", "mermaid_convert"]

/-- The window-flag discipline of `handleWebSocketMessage` (App.tsx lines
244-442): the six `shouldMarkAsRemote` kinds, and additionally
`elements_cleared` (lines 366-381), set `isApplyingRemoteUpdateRef` and
(re)start the 500 ms expiry timer.  The scene mutations themselves act on the
drawing surface (out of scope here); their echo arrives later as a
`handleCanvasChange` notification. -/
def handleWebSocketMessage (msgType : String) (s : CanvasState) : CanvasState :=
  if msgType ∈ remoteMarkTypes || msgType == "elements_cleared" then
    { s with isApplyingRemoteUpdate := true, remoteTimeout := true }
  else s

/-- Expiry of the remote update window (the 500 ms `setTimeout` callback,
App.tsx lines 275-281): reset the flag. -/
def fireRemoteTimeout (s : CanvasState) : CanvasState :=
  if s.remoteTimeout then
    { s with isApplyingRemoteUpdate := false, remoteTimeout := false }
  else s

/-- Transcribes `handleCanvasChange` (App.tsx lines 625-667).  While the remote window is
open the notification is classified self-inflicted: the baseline is updated
and the function returns, emitting nothing and leaving any pending debounce
untouched (the early return precedes the `clearTimeout`).  Otherwise the
debounce is (re)scheduled, capturing the notified elements in its closure. -/
def handleCanvasChange (elements : List FElement) (s : CanvasState) :
    CanvasState × List CanvasEmit :=
  if s.isApplyingRemoteUpdate then
    ({ s with lastElements := elements }, [])
  else
    ({ s with changeTimeout := some elements }, [])

/-- The debounce callback at fire time (App.tsx lines 644-666), applied to
the state current when the timer fires; `elements` is the closure-captured
argument held in `changeTimeout`.  It re-checks the remote window: if open
the cycle is discarded (baseline still updated to the captured elements);
if closed and the diff is non-empty, one description is emitted via both
delivery channels and the baseline is updated. -/
def fireDebounce (s : CanvasState) : CanvasState × List CanvasEmit :=
  match s.changeTimeout with
  | none => (s, [])
  | some elements =>
    if s.isApplyingRemoteUpdate then
      ({ s with lastElements := elements, changeTimeout := none }, [])
    else
      match describeCanvasChanges elements s.lastElements with
      | some d =>
        ({ s with lastElements := elements, changeTimeout := none },
         [.postMessage d, .wsSend d])
      | none =>
        ({ s with lastElements := elements, changeTimeout := none }, [])

/-! ## Realtime client (client/src/hooks/useRealtimeSession.ts) -/

/-- The fields of a protocol `item` that the client reads
(`RealtimeEvent.item`, useRealtimeSession.ts lines 18-29). -/
structure RtItem where
  type : Option String
  call_id : Option String
  name : Option String
  arguments : Option String
deriving DecidableEq, Repr

/-- A parsed inbound protocol message (`RealtimeEvent`): the `type` tag, the
optional remote timestamp, and the optional `item` body. -/
structure RtEvent where
  type : String
  timestamp : Option String
  item : Option RtItem
deriving DecidableEq, Repr

/-- Reads `event.item?.call_id` of an event. -/
def eventCallId (e : RtEvent) : Option String :=
  e.item.bind (fun it => it.call_id)

/-- The canonical function-call trigger: `response.function_call_arguments.done`
with a truthy `item.call_id` (useRealtimeSession.ts lines 732-735). -/
def isCanonicalTrigger (e : RtEvent) : Bool :=
  e.type == "response.function_call_arguments.done" && truthyS (eventCallId e)

/-- The fallback function-call trigger: `response.output_item.done` carrying a
`function_call` item with a truthy `call_id` (lines 746-750). -/
def isFallbackTrigger (e : RtEvent) : Bool :=
  e.type == "response.output_item.done" &&
    (e.item.bind (fun it => it.type) == some "function_call") &&
    truthyS (eventCallId e)

/-- Either function-call trigger kind. -/
def isTrigger (e : RtEvent) : Bool :=
  isCanonicalTrigger e || isFallbackTrigger e

/-- The router state touched by `messageHandler`: the event log of the
Zustand store (`events`, newest first — `addEvent` prepends,
realtimeStore.ts lines 75-78), the per-channel `processedCalls` dedup set
(useRealtimeSession.ts line 682), and the `isListening` flag. -/
structure RouterState where
  log : List RtEvent
  processedCalls : List String
  isListening : Bool
deriving DecidableEq, Repr

/-- Initial router state of a fresh data channel: the `processedCalls` set is
created empty when the message listener is attached. -/
def initRouter : RouterState :=
  { log := [], processedCalls := [], isListening := false }

/-- Actions the router performs, in order, on one message: the event-log
append (`addEvent`) and a possible dispatch to `handleFunctionCall`. -/
inductive RouterAction where
  | logAppend (e : RtEvent)
  | dispatch (it : RtItem)
deriving DecidableEq, Repr

/-- Transcribes `if (!event.timestamp) event.timestamp = new Date(...)` (lines 687-689):
stamp a local timestamp exactly when the inbound one is falsy. -/
def stampEvent (localTime : String) (e : RtEvent) : RtEvent :=
  if truthyS e.timestamp then e else { e with timestamp := some localTime }

/-- Transcribes `messageHandler` (useRealtimeSession.ts lines 685-762): stamp the event,
append it to the log (before anything else), update `isListening` on the
speech events, then — on either function-call trigger kind — dispatch the
event's item unless its `call_id` is already in `processedCalls`, recording
the `call_id` when dispatching.  The two trigger branches of the source have
identical bodies and are mutually exclusive `else if` arms, so they are
folded into one guard here. -/
def messageHandler (localTime : String) (event : RtEvent) (s : RouterState) :
    RouterState × List RouterAction :=
  let ev := stampEvent localTime event
  let s1 : RouterState :=
    { s with
      log := ev :: s.log
      isListening :=
        if ev.type == "input_audio_buffer.speech_started" then true
        else if ev.type == "input_audio_buffer.speech_stopped" then false
        else s.isListening }
  if isTrigger ev then
    let c := (eventCallId ev).getD ""
    if c ∈ s1.processedCalls then
      (s1, [.logAppend ev])
    else
      ({ s1 with processedCalls := c :: s1.processedCalls },
       [.logAppend ev, .dispatch (ev.item.getD ⟨none, none, none, none⟩)])
  else (s1, [.logAppend ev])

/-- Process a list of inbound messages in arrival order, concatenating the
per-message action traces. -/
def runRouter (localTime : String) : List RtEvent → RouterState →
    RouterState × List RouterAction
  | [], s => (s, [])
  | e :: es, s =>
    let r1 := messageHandler localTime e s
    let r2 := runRouter localTime es r1.1
    (r2.1, r1.2 ++ r2.2)

/-- The items dispatched for a given `callId` within an action trace. -/
def dispatchedFor (c : String) (as : List RouterAction) : List RtItem :=
  as.filterMap (fun a =>
    match a with
    | .dispatch it => if it.call_id == some c then some it else none
    | .logAppend _ => none)

/-- The item of the first trigger message (of either kind) for a given
`callId` in a message sequence. -/
def firstTrigger (c : String) : List RtEvent → Option RtItem
  | [] => none
  | e :: es =>
    if isTrigger e && ((eventCallId e).getD "" == c) then
      some (e.item.getD ⟨none, none, none, none⟩)
    else firstTrigger c es

/-! ### Tool call bridge (`handleFunctionCall`, useRealtimeSession.ts 507-655)

`JSON.parse` and the gateway `fetch` are platform suspension points, modelled
as environment functions; everything downstream of them is transcribed from
the source. -/

/-- A JSON value, as produced by `JSON.parse` and consumed by the output
formatting of the bridge. -/
inductive Json where
  | null
  | bool (b : Bool)
  | num (n : Int)
  | str (s : String)
  | arr (xs : List Json)
  | obj (fields : List (String × Json))

/-- JS truthiness of a JSON value (objects and arrays are always truthy). -/
def jsTruthy : Json → Bool
  | .null => false
  | .bool b => b
  | .num n => !(n == 0)
  | .str s => !(s == "")
  | .arr _ => true
  | .obj _ => true

/-- Property access `j.k` on a parsed JSON value: defined only on objects;
duplicate keys follow `JSON.parse` (last wins). -/
def jsGet (j : Json) (k : String) : Option Json :=
  match j with
  | .obj fields => (fields.reverse.find? (fun f => f.1 == k)).map (fun f => f.2)
  | _ => none

/-- Minimal string escaping of `JSON.stringify`. -/
def escapeJson (s : String) : String :=
  String.join (s.toList.map (fun c =>
    if c == '"' then "\\\"" else if c == '\\' then "\\\\" else String.singleton c))

mutual

/-- Stringification following `JSON.stringify` over the JSON model. -/
def strJson : Json → String
  | .null => "null"
  | .bool true => "true"
  | .bool false => "false"
  | .num n => toString n
  | .str s => "\"" ++ escapeJson s ++ "\""
  | .arr xs => "[" ++ String.intercalate "," (strJsonList xs) ++ "]"
  | .obj fields => "\x7b" ++ String.intercalate "," (strJsonFields fields) ++ "\x7d"

/-- Stringify the members of a JSON array. -/
def strJsonList : List Json → List String
  | [] => []
  | x :: xs => strJson x :: strJsonList xs

/-- Stringify the fields of a JSON object. -/
def strJsonFields : List (String × Json) → List String
  | [] => []
  | (k, v) :: fs => ("\"" ++ escapeJson k ++ "\":" ++ strJson v) :: strJsonFields fs

end

/-- Transcribes `String(c.text || "")` for one entry of a content array (lines 585-587):
the `text` field when truthy, else the empty string. -/
def partText (c : Json) : String :=
  match jsGet c "text" with
  | some v => if jsTruthy v then
      match v with
      | .str s => s
      | other => strJson other
    else ""
  | none => ""

/-- The output formatting of a successful gateway response (lines 583-595):
join the `result.content` texts when `content` is an array, else stringify
`result`, else stringify the whole body. -/
def formatOutput (result : Json) : String :=
  match jsGet result "result" with
  | some r =>
    match jsGet r "content" with
    | some (.arr parts) => String.intercalate "\n" (parts.map partText)
    | _ => if jsTruthy r then strJson r else strJson result
  | none => strJson result

/-- Transcribes `JSON.stringify({ error: message, success: false })` (lines 637-640). -/
def errorOutput (message : String) : String :=
  strJson (.obj [("error", .str message), ("success", .bool false)])

/-- Outcome of the gateway `fetch` to `/api/realtime/tool`: a parsed JSON
body on HTTP success, the status and error text when `!toolResponse.ok`
(lines 569-576), or a rejected fetch (network error). -/
inductive GatewayResponse where
  | ok (body : Json)
  | httpError (status : Nat) (text : String)
  | networkError (message : String)

/-- Environment of the bridge: whether the data channel is available
(`sendClientEvent` drops the send otherwise, lines 447-466), the `JSON.parse`
oracle, and the gateway. -/
structure BridgeEnv where
  channelOpen : Bool
  parseJson : String → Option Json
  gateway : String → Json → GatewayResponse

/-- Conversation messages the bridge emits through `sendClientEvent`. -/
inductive SentMsg where
  | functionCallOutput (callId : String) (output : String)
  | responseCreate
deriving DecidableEq, Repr

/-- Transcribes `sendClientEvent` (lines 444-469): sends only when a data channel is
present. -/
def sendClientEvent (env : BridgeEnv) (m : SentMsg) : List SentMsg :=
  if env.channelOpen then [m] else []

/-- Result of one bridge run: the conversation messages sent, and whether the
gateway endpoint was invoked. -/
structure BridgeResult where
  sent : List SentMsg
  gatewayCalled : Bool
deriving DecidableEq, Repr

/-- The argument-parsing step (lines 525-541): a truthy `arguments` string is
parsed, a parse failure raises `Invalid JSON in arguments: …`, an absent or
empty string yields the empty object. -/
def parseArguments (env : BridgeEnv) (item : RtItem) : Except String Json :=
  if truthyS item.arguments then
    match env.parseJson (item.arguments.getD "") with
    | some j => .ok j
    | none => .error ("Invalid JSON in arguments: " ++ item.arguments.getD "")
  else .ok (.obj [])

/-- Transcribes `handleFunctionCall` (useRealtimeSession.ts lines 507-655).  Items
missing a truthy `name` or `call_id` are dropped with no effect (lines
517-522).  Otherwise every outcome — parse failure, gateway HTTP failure,
network failure, success — sends one `function_call_output` item tagged with
the original `call_id` followed by a `response.create`; failures synthesize a
`{error, success:false}` payload via `errorOutput`.  Store-indicator updates
(`setExecutingTool`) are UI state, not conversation output, and are elided. -/
def handleFunctionCall (env : BridgeEnv) (item : RtItem) : BridgeResult :=
  if !truthyS item.name || !truthyS item.call_id then
    { sent := [], gatewayCalled := false }
  else
    let callId := item.call_id.getD ""
    let emit := fun (out : String) =>
      sendClientEvent env (.functionCallOutput callId out) ++
        sendClientEvent env .responseCreate
    match parseArguments env item with
    | .error msg => { sent := emit (errorOutput msg), gatewayCalled := false }
    | .ok args =>
      match env.gateway (item.name.getD "") args with
      | .ok body => { sent := emit (formatOutput body), gatewayCalled := true }
      | .httpError status text =>
        { sent := emit (errorOutput
            ("Tool execution failed (" ++ toString status ++ "): " ++ text)),
          gatewayCalled := true }
      | .networkError message =>
        { sent := emit (errorOutput message), gatewayCalled := true }

/-! ### Session lifecycle (`stopSession`, useRealtimeSession.ts 400-441)

The refs of the hook and the store flags it resets.  Session-scoped
`setTimeout` timers are modelled as a pending-timer list: the 500 ms
start-trigger timer (lines 273-294) and the 2000 ms executing-tool-clear
timer (line 622) are the timers a session schedules; `stopSession` contains
no `clearTimeout`, so its embedding leaves the list untouched. -/

/-- A pending session-scoped timer. -/
inductive SessionTimer where
  | startTrigger
  | executingToolClear
deriving DecidableEq, Repr

/-- The client-side session state: WebRTC refs (identified by opaque ids),
the Zustand store flags, and the pending timers.  `pcSenders` holds, per
sender of the peer connection, its optional track. -/
structure ClientState where
  dataChannel : Option Nat
  localStreamTracks : Option (List Nat)
  pcSenders : Option (List (Option Nat))
  audioElemAttached : Option Bool
  isSessionActive : Bool
  toolsRegistered : Bool
  registeredTools : List String
  microphoneActive : Bool
  isListening : Bool
  audioBlocked : Bool
  executingTool : Option String
  pendingTimers : List SessionTimer
deriving DecidableEq, Repr

/-- Resource-release actions performed by `stopSession`. -/
inductive ReleaseAction where
  | closeDataChannel
  | stopTrack (id : Nat)
  | stopSenderTrack (id : Nat)
  | closePeerConnection
  | removeAudioElement
deriving DecidableEq, Repr

/-- Transcribes `stopSession` (useRealtimeSession.ts lines 400-441): close the data
channel if present, stop every local microphone track and null the stream,
stop every sender track and close the peer connection if present, remove the
audio element if it is attached to the document, then null all refs and
reset the store flags.  No timer is cleared and `executingTool` is not
touched. -/
def stopSession (s : ClientState) : ClientState × List ReleaseAction :=
  let a1 := if s.dataChannel.isSome then [ReleaseAction.closeDataChannel] else []
  let a2 := match s.localStreamTracks with
    | some tracks => tracks.map ReleaseAction.stopTrack
    | none => []
  let a3 := match s.pcSenders with
    | some senders =>
      (senders.filterMap id).map ReleaseAction.stopSenderTrack ++
        [ReleaseAction.closePeerConnection]
    | none => []
  let a4 := match s.audioElemAttached with
    | some true => [ReleaseAction.removeAudioElement]
    | _ => []
  ({ s with
      dataChannel := none
      localStreamTracks := none
      pcSenders := none
      audioElemAttached := none
      isSessionActive := false
      toolsRegistered := false
      registeredTools := []
      microphoneActive := false
      isListening := false
      audioBlocked := false },
   a1 ++ a2 ++ a3 ++ a4)

/-- Transcribes `setExecutingTool` of the store (realtimeStore.ts line 88), as invoked by
a newly started session's tool execution. -/
def setExecutingTool (tool : Option String) (s : ClientState) : ClientState :=
  { s with executingTool := tool }

/-- Firing a pending timer: the executing-tool-clear callback runs
`setExecutingTool(null)` (line 622); the start-trigger callback only sends on
its captured data channel (lines 273-294), which after `stopSession` raises
on the closed channel without touching this state. -/
def fireTimer : SessionTimer → ClientState → ClientState
  | .executingToolClear, s =>
    { s with executingTool := none, pendingTimers := s.pendingTimers.erase .executingToolClear }
  | .startTrigger, s =>
    { s with pendingTimers := s.pendingTimers.erase .startTrigger }

/-! ## Theorems -/

/-- C2: a drawing-surface change notification arriving while the
`RemoteUpdateWindow` is open produces no emitted diff and no scheduled
debounce, yet updates the `CanvasBaseline` (`lastElementsRef`) to the
notified element state; and every remote-origin mutation kind —
initial-state application, element create/update/delete, batch create,
clear, and mermaid conversion — opens the window and (re)starts its expiry
timer. -/
theorem remote_window_suppresses_and_updates_baseline
    (msgType : String) (elements : List FElement) (s t : CanvasState)
    (hmark : msgType ∈ remoteMarkTypes ∨ msgType = "elements_cleared")
    (hopen : t.isApplyingRemoteUpdate = true) :
    ((handleWebSocketMessage msgType s).isApplyingRemoteUpdate = true ∧
      (handleWebSocketMessage msgType s).remoteTimeout = true) ∧
    handleCanvasChange elements t = ({ t with lastElements := elements }, []) := by
  constructor
  · have hcond : (decide (msgType ∈ remoteMarkTypes) || msgType == "elements_cleared") = true := by
      rcases hmark with h | h
      · simp [h]
      · simp [h]
    unfold handleWebSocketMessage
    rw [hcond]
    exact ⟨rfl, rfl⟩
  · unfold handleCanvasChange
    rw [hopen]
    simp

/-- Witness for C2: an `element_created` message opens the window, and a
notification arriving while it is open is suppressed with the baseline
updated. -/
theorem remote_window_suppresses_and_updates_baseline_witness :
    ((handleWebSocketMessage "element_created"
        ⟨[], none, false, false⟩).isApplyingRemoteUpdate = true ∧
      (handleWebSocketMessage "element_created"
        ⟨[], none, false, false⟩).remoteTimeout = true) ∧
    handleCanvasChange [⟨"r1", "ellipse", 1⟩] ⟨[], none, true, true⟩ =
      (⟨[⟨"r1", "ellipse", 1⟩], none, true, true⟩, []) :=
  remote_window_suppresses_and_updates_baseline "element_created"
    [⟨"r1", "ellipse", 1⟩] ⟨[], none, false, false⟩ ⟨[], none, true, true⟩
    (by decide) rfl

/-- The user-notification elements captured at schedule time in the C3
counterexample trace. -/
def c3UserElements : List FElement := [⟨"u1", "rectangle", 1⟩]

/-- The post-remote-mutation elements in the C3 counterexample trace. -/
def c3RemoteElements : List FElement :=
  [⟨"u1", "rectangle", 1⟩, ⟨"r1", "ellipse", 1⟩]

/-- The canvas state of the C3 counterexample trace at debounce expiry:
a user edit scheduled the debounce (capturing `c3UserElements`), then a
remote mutation opened the window and its echo notification moved the
baseline to `c3RemoteElements`. -/
def c3AtExpiry : CanvasState :=
  (handleCanvasChange c3RemoteElements
    (handleWebSocketMessage "element_created"
      (handleCanvasChange c3UserElements ⟨[], none, false, false⟩).1)).1

/-- Counterexample to C3: with the window open at expiry the debounce cycle
is indeed discarded (no diff), but the `CanvasBaseline` ends at the
schedule-time captured elements `c3UserElements`, clobbering the
post-remote-mutation baseline `c3RemoteElements` the claim promises. -/
theorem debounce_expiry_baseline_counterexample :
    c3AtExpiry.lastElements = c3RemoteElements ∧
    (fireDebounce c3AtExpiry).2 = [] ∧
    (fireDebounce c3AtExpiry).1.lastElements = c3UserElements ∧
    c3UserElements ≠ c3RemoteElements := by decide

/-- C3 as amended: the debounce callback re-evaluates the
`RemoteUpdateWindow` at fire time; if the window is open the cycle is
discarded — no diff is emitted — and the `CanvasBaseline` is updated to the
element state captured when the debounce was scheduled (not to the
post-remote-mutation state). -/
theorem debounce_expiry_recheck (s : CanvasState) (es : List FElement)
    (hto : s.changeTimeout = some es)
    (hopen : s.isApplyingRemoteUpdate = true) :
    fireDebounce s = ({ s with lastElements := es, changeTimeout := none }, []) := by
  unfold fireDebounce
  rw [hto, hopen]
  simp

/-- Witness for the amended C3 at the counterexample trace state. -/
theorem debounce_expiry_recheck_witness :
    fireDebounce c3AtExpiry =
      ({ c3AtExpiry with lastElements := c3UserElements, changeTimeout := none }, []) :=
  debounce_expiry_recheck c3AtExpiry c3UserElements (by decide) (by decide)

/-- C6: for a user-origin debounce cycle whose window is closed at expiry
and whose diff is non-empty, exactly one diff description is emitted (sent
once on each of the two delivery channels), computed against the
`CanvasBaseline` by classifying elements as added (id not in the baseline),
removed (baseline id absent now), or modified (same id, different version),
composed into a single summary prefixed `User made changes to canvas: `;
the baseline is then updated to the notified state. -/
theorem user_diff_cycle (s : CanvasState) (es : List FElement) (d : String)
    (hclosed : s.isApplyingRemoteUpdate = false)
    (hto : s.changeTimeout = some es)
    (hdesc : describeCanvasChanges es s.lastElements = some d) :
    fireDebounce s =
      ({ s with lastElements := es, changeTimeout := none },
       [.postMessage d, .wsSend d]) ∧
    (∀ e, e ∈ addedOf es s.lastElements ↔
      e ∈ es ∧ ∀ p ∈ s.lastElements, p.id ≠ e.id) ∧
    (∀ e, e ∈ removedOf es s.lastElements ↔
      e ∈ s.lastElements ∧ ∀ c ∈ es, c.id ≠ e.id) ∧
    (∀ e, e ∈ modifiedOf es s.lastElements ↔
      e ∈ es ∧ ∃ p, lastFind s.lastElements e.id = some p ∧ p.version ≠ e.version) ∧
    (∃ rest, d = "User made changes to canvas: " ++ rest) := by
  refine ⟨?_, ?_, ?_, ?_, ?_⟩
  · unfold fireDebounce
    rw [hto]
    simp [hclosed, hdesc]
  · intro e
    simp only [addedOf, List.mem_filter, Bool.not_eq_true', List.any_eq_false,
      beq_iff_eq]
  · intro e
    simp only [removedOf, List.mem_filter, Bool.not_eq_true', List.any_eq_false,
      beq_iff_eq]
  · intro e
    simp only [modifiedOf, List.mem_filter]
    constructor
    · rintro ⟨he, hsel⟩
      rcases hp : lastFind s.lastElements e.id with _ | p
      · rw [hp] at hsel
        exact absurd hsel (by simp)
      · rw [hp] at hsel
        simp only [Bool.not_eq_true', beq_eq_false_iff_ne, ne_eq] at hsel
        exact ⟨he, p, rfl, hsel⟩
    · rintro ⟨he, p, hp, hv⟩
      refine ⟨he, ?_⟩
      rw [hp]
      simpa using hv
  · unfold describeCanvasChanges at hdesc
    simp only at hdesc
    repeat' split at hdesc
    all_goals
      first
        | exact Option.noConfusion hdesc
        | exact ⟨_, (Option.some_inj.mp hdesc).symm⟩

/-- Witness for C6: a cycle adding one rectangle to an empty baseline emits
exactly the summary `User made changes to canvas: Added 1 element(s):
rectangle` on both channels and moves the baseline. -/
theorem user_diff_cycle_witness :
    fireDebounce ⟨[], some [⟨"u1", "rectangle", 1⟩], false, false⟩ =
      (⟨[⟨"u1", "rectangle", 1⟩], none, false, false⟩,
       [.postMessage "User made changes to canvas: Added 1 element(s): rectangle",
        .wsSend "User made changes to canvas: Added 1 element(s): rectangle"]) :=
  (user_diff_cycle ⟨[], some [⟨"u1", "rectangle", 1⟩], false, false⟩
    [⟨"u1", "rectangle", 1⟩]
    "User made changes to canvas: Added 1 element(s): rectangle"
    rfl rfl (by decide)).1

/-! ### Router lemmas -/

lemma stampEvent_item (lt : String) (e : RtEvent) :
    (stampEvent lt e).item = e.item := by
  unfold stampEvent
  split <;> rfl

lemma stampEvent_type (lt : String) (e : RtEvent) :
    (stampEvent lt e).type = e.type := by
  unfold stampEvent
  split <;> rfl

lemma eventCallId_stamp (lt : String) (e : RtEvent) :
    eventCallId (stampEvent lt e) = eventCallId e := by
  unfold eventCallId
  rw [stampEvent_item]

lemma isTrigger_stamp (lt : String) (e : RtEvent) :
    isTrigger (stampEvent lt e) = isTrigger e := by
  unfold isTrigger isCanonicalTrigger isFallbackTrigger
  rw [stampEvent_type, stampEvent_item, eventCallId_stamp]

lemma trigger_callId_spec (e : RtEvent) (h : isTrigger e = true) :
    ∃ it c, e.item = some it ∧ it.call_id = some c ∧
      (eventCallId e).getD "" = c ∧ e.item.getD ⟨none, none, none, none⟩ = it := by
  have htr : truthyS (eventCallId e) = true := by
    by_contra hf
    have hf' : truthyS (eventCallId e) = false := by
      cases hb : truthyS (eventCallId e)
      · rfl
      · exact absurd hb hf
    unfold isTrigger isCanonicalTrigger isFallbackTrigger at h
    rw [hf'] at h
    simp at h
  unfold eventCallId at htr ⊢
  cases hi : e.item with
  | none =>
    simp [truthyS, hi] at htr
  | some it =>
    cases hc : it.call_id with
    | none =>
      simp [truthyS, hi, hc] at htr
    | some c =>
      refine ⟨it, c, rfl, hc, ?_, rfl⟩
      show (it.call_id).getD "" = c
      rw [hc]
      rfl

lemma messageHandler_log (lt : String) (e : RtEvent) (s : RouterState) :
    (messageHandler lt e s).1.log = stampEvent lt e :: s.log := by
  unfold messageHandler
  dsimp only
  repeat' split
  all_goals rfl

lemma dispatchedFor_append (c : String) (l1 l2 : List RouterAction) :
    dispatchedFor c (l1 ++ l2) = dispatchedFor c l1 ++ dispatchedFor c l2 := by
  unfold dispatchedFor
  exact List.filterMap_append _ _ _

lemma firstTrigger_cons (c : String) (e : RtEvent) (es : List RtEvent) :
    firstTrigger c (e :: es) =
      if isTrigger e && ((eventCallId e).getD "" == c) then
        some (e.item.getD ⟨none, none, none, none⟩)
      else firstTrigger c es := rfl

lemma messageHandler_cases (lt : String) (e : RtEvent) (s : RouterState) :
    (isTrigger e = false ∧
      (messageHandler lt e s).2 = [.logAppend (stampEvent lt e)] ∧
      (messageHandler lt e s).1.processedCalls = s.processedCalls) ∨
    (isTrigger e = true ∧ (eventCallId e).getD "" ∈ s.processedCalls ∧
      (messageHandler lt e s).2 = [.logAppend (stampEvent lt e)] ∧
      (messageHandler lt e s).1.processedCalls = s.processedCalls) ∨
    (isTrigger e = true ∧ (eventCallId e).getD "" ∉ s.processedCalls ∧
      (messageHandler lt e s).2 =
        [.logAppend (stampEvent lt e),
         .dispatch (e.item.getD ⟨none, none, none, none⟩)] ∧
      (messageHandler lt e s).1.processedCalls =
        (eventCallId e).getD "" :: s.processedCalls) := by
  unfold messageHandler
  dsimp only
  rw [isTrigger_stamp, eventCallId_stamp, stampEvent_item]
  by_cases h1 : isTrigger e = true
  · rw [if_pos h1]
    by_cases h2 : (eventCallId e).getD "" ∈ s.processedCalls
    · rw [if_pos h2]
      exact Or.inr (Or.inl ⟨h1, h2, rfl, rfl⟩)
    · rw [if_neg h2]
      exact Or.inr (Or.inr ⟨h1, h2, rfl, rfl⟩)
  · have h1' : isTrigger e = false := by
      cases hb : isTrigger e
      · rfl
      · exact absurd hb h1
    rw [if_neg h1]
    exact Or.inl ⟨h1', rfl, rfl⟩

lemma dispatched_runRouter (lt c : String) (msgs : List RtEvent) :
    ∀ s : RouterState,
      dispatchedFor c (runRouter lt msgs s).2 =
        if c ∈ s.processedCalls then []
        else
          match firstTrigger c msgs with
          | some it => [it]
          | none => [] := by
  induction msgs with
  | nil =>
    intro s
    show dispatchedFor c [] = _
    split <;> rfl
  | cons e es ih =>
    intro s
    have hrun : (runRouter lt (e :: es) s).2 =
        (messageHandler lt e s).2 ++ (runRouter lt es (messageHandler lt e s).1).2 := rfl
    rw [hrun, dispatchedFor_append, ih, firstTrigger_cons]
    rcases messageHandler_cases lt e s with
      ⟨h1, hacts, hproc⟩ | ⟨h1, hmem, hacts, hproc⟩ | ⟨h1, hmem, hacts, hproc⟩
    · rw [hacts, hproc]
      simp [dispatchedFor, h1]
    · rw [hacts, hproc]
      by_cases hc : (eventCallId e).getD "" = c
      · have hcmem : c ∈ s.processedCalls := hc ▸ hmem
        simp [dispatchedFor, hcmem, h1, hc]
      · have hbeq : ((eventCallId e).getD "" == c) = false := by
          simp [hc]
        simp [dispatchedFor, hbeq]
    · obtain ⟨it0, c0, hi, hcid, hgetD, hitem⟩ := trigger_callId_spec e h1
      rw [hacts, hproc, hitem]
      by_cases hc : (eventCallId e).getD "" = c
      · have hc0 : c0 = c := by rw [← hgetD, hc]
        have hnm : c ∉ s.processedCalls := hc ▸ hmem
        have hmem2 : c ∈ (eventCallId e).getD "" :: s.processedCalls := by
          rw [hc]
          exact List.mem_cons_self _ _
        simp [dispatchedFor, hnm, hmem2, h1, hc, hcid, hc0]
      · have hc0 : ¬ c0 = c := by
          rw [← hgetD]
          exact hc
        have hbeq : ((eventCallId e).getD "" == c) = false := by
          simp [hc]
        have hmem2 : (c ∈ (eventCallId e).getD "" :: s.processedCalls) ↔
            c ∈ s.processedCalls := by
          constructor
          · intro h
            rcases List.mem_cons.mp h with h | h
            · exact absurd h.symm hc
            · exact h
          · exact fun h => List.mem_cons_of_mem _ h
        simp only [hmem2]
        have hdisp : dispatchedFor c
            [RouterAction.logAppend (stampEvent lt e), RouterAction.dispatch it0] = [] := by
          simp [dispatchedFor, hcid, hc0]
        rw [hdisp]
        simp [hbeq]

lemma runRouter_log (lt : String) (msgs : List RtEvent) :
    ∀ s : RouterState,
      (runRouter lt msgs s).1.log = (msgs.map (stampEvent lt)).reverse ++ s.log := by
  induction msgs with
  | nil =>
    intro s
    rfl
  | cons e es ih =>
    intro s
    have h1 : (runRouter lt (e :: es) s).1 =
        (runRouter lt es (messageHandler lt e s).1).1 := rfl
    rw [h1, ih, messageHandler_log]
    simp

lemma messageHandler_trace (lt : String) (e : RtEvent) (s : RouterState) :
    ∃ rest, (messageHandler lt e s).2 = .logAppend (stampEvent lt e) :: rest ∧
      ∀ a ∈ rest, ∃ it, a = RouterAction.dispatch it := by
  rcases messageHandler_cases lt e s with ⟨_, hacts, _⟩ | ⟨_, _, hacts, _⟩ | ⟨_, _, hacts, _⟩
  · exact ⟨[], by rw [hacts], by simp⟩
  · exact ⟨[], by rw [hacts], by simp⟩
  · refine ⟨[.dispatch (e.item.getD ⟨none, none, none, none⟩)], by rw [hacts], ?_⟩
    intro a ha
    rw [List.mem_singleton] at ha
    exact ⟨_, ha⟩

/-- C5 as amended: for each `callId` the router dispatches the item of
whichever trigger kind arrives first; the canonical kind's item wins only
when the canonical message precedes the fallback one.  (Dedup is
first-trigger-wins, not canonical-preferring.) -/
theorem router_first_trigger_wins (lt : String) (msgs : List RtEvent) (c : String) :
    dispatchedFor c (runRouter lt msgs initRouter).2 =
      match firstTrigger c msgs with
      | some it => [it]
      | none => [] := by
  rw [dispatched_runRouter]
  simp [initRouter]

/-- Counterexample to C5: both trigger kinds are observed for `callId`
`c1`, the fallback kind first; the dispatched item is the fallback
message's item, not the canonical message's item as the claim requires. -/
theorem canonical_preference_counterexample :
    isFallbackTrigger (⟨"response.output_item.done", none,
        some ⟨some "function_call", some "c1", some "toolA", some "argsA"⟩⟩ : RtEvent) = true ∧
    isCanonicalTrigger (⟨"response.function_call_arguments.done", none,
        some ⟨none, some "c1", some "toolB", some "argsB"⟩⟩ : RtEvent) = true ∧
    dispatchedFor "c1"
      (runRouter "t"
        [⟨"response.output_item.done", none,
          some ⟨some "function_call", some "c1", some "toolA", some "argsA"⟩⟩,
         ⟨"response.function_call_arguments.done", none,
          some ⟨none, some "c1", some "toolB", some "argsB"⟩⟩] initRouter).2 =
      [⟨some "function_call", some "c1", some "toolA", some "argsA"⟩] ∧
    (⟨some "function_call", some "c1", some "toolA", some "argsA"⟩ : RtItem) ≠
      ⟨none, some "c1", some "toolB", some "argsB"⟩ := by decide

/-- C9: the router appends every parsed message to the append-only event
log (so the entry for the i-th message sits at insertion index
`s.log.length + i`, a strictly increasing local sequence number), stamps a
local timestamp exactly when the message arrived without a truthy one, and
the log append is the first action of the per-message trace — any tool-call
dispatch comes after it. -/
theorem router_logs_before_dispatch (lt : String) (msgs : List RtEvent)
    (s : RouterState) (e : RtEvent) :
    (runRouter lt msgs s).1.log = (msgs.map (stampEvent lt)).reverse ++ s.log ∧
    (∀ i, i ≤ msgs.length →
      (runRouter lt (msgs.take i) s).1.log.length = s.log.length + i) ∧
    (truthyS e.timestamp = true → stampEvent lt e = e) ∧
    (truthyS e.timestamp = false →
      stampEvent lt e = { e with timestamp := some lt }) ∧
    (∃ rest, (messageHandler lt e s).2 = .logAppend (stampEvent lt e) :: rest ∧
      ∀ a ∈ rest, ∃ it, a = RouterAction.dispatch it) := by
  refine ⟨runRouter_log lt msgs s, ?_, ?_, ?_, messageHandler_trace lt e s⟩
  · intro i hi
    rw [runRouter_log]
    simp only [List.length_append, List.length_reverse, List.length_map,
      List.length_take]
    omega
  · intro h
    unfold stampEvent
    rw [h]
    simp
  · intro h
    unfold stampEvent
    rw [h]
    simp

/-- Witness for C9 on a two-message sequence: the log holds both stamped
events in prepend order, the message lacking a timestamp got the local one,
and the message carrying one kept it. -/
theorem router_logs_before_dispatch_witness :
    (runRouter "10:00:00" [⟨"response.created", none, none⟩,
        ⟨"session.updated", some "09:59:59", none⟩] initRouter).1.log =
      ([⟨"response.created", none, none⟩,
        ⟨"session.updated", some "09:59:59", none⟩].map
          (stampEvent "10:00:00")).reverse ++ initRouter.log ∧
    stampEvent "10:00:00" ⟨"session.updated", some "09:59:59", none⟩ =
      ⟨"session.updated", some "09:59:59", none⟩ ∧
    stampEvent "10:00:00" ⟨"response.created", none, none⟩ =
      ⟨"response.created", some "10:00:00", none⟩ := by
  have h := router_logs_before_dispatch "10:00:00"
    [⟨"response.created", none, none⟩, ⟨"session.updated", some "09:59:59", none⟩]
    initRouter ⟨"session.updated", some "09:59:59", none⟩
  have h2 := router_logs_before_dispatch "10:00:00"
    [⟨"response.created", none, none⟩, ⟨"session.updated", some "09:59:59", none⟩]
    initRouter ⟨"response.created", none, none⟩
  exact ⟨h.1, h.2.2.1 (by decide), h2.2.2.2.1 (by decide)⟩

/-! ### Bridge lemmas and claim theorems about tool calls -/

/-- Recognizer for `function_call_output` conversation items among sent
messages. -/
def isFnCallOutput : SentMsg → Bool
  | .functionCallOutput _ _ => true
  | .responseCreate => false

/-- A concrete environment whose `JSON.parse` always fails and whose
gateway returns an empty success body. -/
def envParseNone : BridgeEnv :=
  { channelOpen := true, parseJson := fun _ => none, gateway := fun _ _ => .ok .null }

/-- A dispatched item carrying a `call_id` but no `name`. -/
def itNoName : RtItem := ⟨none, some "c1", none, none⟩

/-- A trigger event whose item carries a `call_id` but no `name`. -/
def evTriggerNoName : RtEvent :=
  ⟨"response.function_call_arguments.done", none, some itNoName⟩

lemma handleFunctionCall_filter_count (env : BridgeEnv) (item : RtItem)
    (hopen : env.channelOpen = true) :
    ((handleFunctionCall env item).sent.filter isFnCallOutput).length =
      if truthyS item.name && truthyS item.call_id then 1 else 0 := by
  unfold handleFunctionCall
  cases hn : truthyS item.name <;> cases hc : truthyS item.call_id
  · simp [isFnCallOutput]
  · simp [isFnCallOutput]
  · simp [isFnCallOutput]
  · cases hp : parseArguments env item with
    | error msg => simp [hp, sendClientEvent, hopen, isFnCallOutput]
    | ok args =>
      cases hg : env.gateway (item.name.getD "") args <;>
        simp [hp, hg, sendClientEvent, hopen, isFnCallOutput]

/-- C1 as amended: within one session each distinct `callId` is dispatched
to the tool-call handler at most once (across both trigger kinds); a second
trigger for an already-seen `callId` only appends to the event log and
changes nothing else; and a dispatched item yields exactly one result
conversation item when it carries a truthy `name`, and zero otherwise (a
nameless item is silently dropped). -/
theorem callid_dispatched_once (lt c : String) (msgs : List RtEvent)
    (e : RtEvent) (s : RouterState) (env : BridgeEnv) (item : RtItem) :
    (dispatchedFor c (runRouter lt msgs initRouter).2).length ≤ 1 ∧
    (isTrigger e = true → (eventCallId e).getD "" ∈ s.processedCalls →
      (messageHandler lt e s).2 = [.logAppend (stampEvent lt e)] ∧
      (messageHandler lt e s).1.processedCalls = s.processedCalls) ∧
    (env.channelOpen = true →
      ((handleFunctionCall env item).sent.filter isFnCallOutput).length =
        if truthyS item.name && truthyS item.call_id then 1 else 0) := by
  refine ⟨?_, ?_, fun hopen => handleFunctionCall_filter_count env item hopen⟩
  · rw [dispatched_runRouter]
    cases hft : firstTrigger c msgs <;> simp [initRouter, hft]
  · intro h1 h2
    rcases messageHandler_cases lt e s with
      ⟨hf, _, _⟩ | ⟨_, _, hacts, hproc⟩ | ⟨_, hnm, _, _⟩
    · rw [h1] at hf
      exact absurd hf (by simp)
    · exact ⟨hacts, hproc⟩
    · exact absurd h2 hnm

/-- Counterexample to C1: a canonical trigger whose item has a `call_id`
but no `name` is dispatched (exactly once), yet the handler emits zero
result conversation items — not exactly one — even though the data channel
is open. -/
theorem dispatch_without_result_counterexample :
    (dispatchedFor "c1" (runRouter "t" [evTriggerNoName] initRouter).2).length = 1 ∧
    (handleFunctionCall envParseNone itNoName).sent = [] ∧
    envParseNone.channelOpen = true := by decide

/-- Witness for the amended C1: a fallback trigger for `c1` is dispatched
at most once; the same trigger against a state that already processed `c1`
is a log-only no-op; and a named item yields exactly one result item. -/
theorem callid_dispatched_once_witness :
    (dispatchedFor "c1" (runRouter "t"
      [⟨"response.output_item.done", none,
        some ⟨some "function_call", some "c1", some "toolA", some "argsA"⟩⟩]
      initRouter).2).length ≤ 1 ∧
    ((messageHandler "t"
        ⟨"response.output_item.done", none,
          some ⟨some "function_call", some "c1", some "toolA", some "argsA"⟩⟩
        ⟨[], ["c1"], false⟩).2 =
      [.logAppend (stampEvent "t"
        ⟨"response.output_item.done", none,
          some ⟨some "function_call", some "c1", some "toolA", some "argsA"⟩⟩)] ∧
      (messageHandler "t"
        ⟨"response.output_item.done", none,
          some ⟨some "function_call", some "c1", some "toolA", some "argsA"⟩⟩
        ⟨[], ["c1"], false⟩).1.processedCalls = ["c1"]) ∧
    ((handleFunctionCall envParseNone
        ⟨some "function_call", some "c1", some "toolA", some "argsA"⟩).sent.filter
      isFnCallOutput).length = 1 := by
  have h := callid_dispatched_once "t" "c1"
    [⟨"response.output_item.done", none,
      some ⟨some "function_call", some "c1", some "toolA", some "argsA"⟩⟩]
    ⟨"response.output_item.done", none,
      some ⟨some "function_call", some "c1", some "toolA", some "argsA"⟩⟩
    ⟨[], ["c1"], false⟩ envParseNone
    ⟨some "function_call", some "c1", some "toolA", some "argsA"⟩
  refine ⟨h.1, h.2.1 (by decide) (by decide), ?_⟩
  have h3 := h.2.2 rfl
  rw [h3]
  decide

/-- C4: for every handled tool invocation with truthy `name` and `call_id`,
whatever the outcome — argument-parse failure, gateway HTTP failure, network
failure, or success — the bridge sends exactly one `function_call_output`
item tagged with the original `callId` followed by one `response.create`
continuation; in the failure cases the output is the synthesized
`{error, success:false}` JSON payload, not a propagated exception. -/
theorem fc_bridge_always_replies (env : BridgeEnv) (item : RtItem)
    (hopen : env.channelOpen = true)
    (hname : truthyS item.name = true)
    (hcid : truthyS item.call_id = true) :
    ∃ out, (handleFunctionCall env item).sent =
        [.functionCallOutput (item.call_id.getD "") out, .responseCreate] ∧
      (∀ msg, parseArguments env item = .error msg → out = errorOutput msg) ∧
      (∀ args status text, parseArguments env item = .ok args →
        env.gateway (item.name.getD "") args = .httpError status text →
        out = errorOutput
          ("Tool execution failed (" ++ toString status ++ "): " ++ text)) ∧
      (∀ args message, parseArguments env item = .ok args →
        env.gateway (item.name.getD "") args = .networkError message →
        out = errorOutput message) ∧
      (∀ args body, parseArguments env item = .ok args →
        env.gateway (item.name.getD "") args = .ok body →
        out = formatOutput body) := by
  unfold handleFunctionCall
  rw [hname, hcid]
  cases hp : parseArguments env item with
  | error msg =>
    refine ⟨errorOutput msg, ?_, ?_, ?_, ?_, ?_⟩
    · simp [sendClientEvent, hopen]
    · intro msg' hmsg
      cases hmsg
      rfl
    · intro args status text hargs
      exact absurd hargs (by simp)
    · intro args message hargs
      exact absurd hargs (by simp)
    · intro args body hargs
      exact absurd hargs (by simp)
  | ok args =>
    cases hg : env.gateway (item.name.getD "") args with
    | ok body =>
      refine ⟨formatOutput body, ?_, ?_, ?_, ?_, ?_⟩
      · simp [hg, sendClientEvent, hopen]
      · intro msg hmsg
        exact absurd hmsg (by simp)
      · intro a st tx ha hgw
        cases ha
        rw [hg] at hgw
        exact absurd hgw (by simp)
      · intro a m ha hgw
        cases ha
        rw [hg] at hgw
        exact absurd hgw (by simp)
      · intro a b ha hgw
        cases ha
        rw [hg] at hgw
        cases hgw
        rfl
    | httpError status text =>
      refine ⟨errorOutput
          ("Tool execution failed (" ++ toString status ++ "): " ++ text),
        ?_, ?_, ?_, ?_, ?_⟩
      · simp [hg, sendClientEvent, hopen]
      · intro msg hmsg
        exact absurd hmsg (by simp)
      · intro a st tx ha hgw
        cases ha
        rw [hg] at hgw
        cases hgw
        rfl
      · intro a m ha hgw
        cases ha
        rw [hg] at hgw
        exact absurd hgw (by simp)
      · intro a b ha hgw
        cases ha
        rw [hg] at hgw
        exact absurd hgw (by simp)
    | networkError message =>
      refine ⟨errorOutput message, ?_, ?_, ?_, ?_, ?_⟩
      · simp [hg, sendClientEvent, hopen]
      · intro msg hmsg
        exact absurd hmsg (by simp)
      · intro a st tx ha hgw
        cases ha
        rw [hg] at hgw
        exact absurd hgw (by simp)
      · intro a m ha hgw
        cases ha
        rw [hg] at hgw
        cases hgw
        rfl
      · intro a b ha hgw
        cases ha
        rw [hg] at hgw
        exact absurd hgw (by simp)

/-- A well-formed tool invocation whose raw arguments are not valid JSON. -/
def itBadArgs : RtItem := ⟨none, some "c1", some "draw_circle", some "notjson"⟩

/-- Witness for C4: the malformed-arguments invocation still yields exactly
one `function_call_output` tagged `c1` followed by a continuation, with an
error-shaped payload. -/
theorem fc_bridge_always_replies_witness :
    ∃ out, (handleFunctionCall envParseNone itBadArgs).sent =
        [.functionCallOutput (itBadArgs.call_id.getD "") out, .responseCreate] ∧
      (∀ msg, parseArguments envParseNone itBadArgs = .error msg →
        out = errorOutput msg) ∧
      (∀ args status text, parseArguments envParseNone itBadArgs = .ok args →
        envParseNone.gateway (itBadArgs.name.getD "") args = .httpError status text →
        out = errorOutput
          ("Tool execution failed (" ++ toString status ++ "): " ++ text)) ∧
      (∀ args message, parseArguments envParseNone itBadArgs = .ok args →
        envParseNone.gateway (itBadArgs.name.getD "") args = .networkError message →
        out = errorOutput message) ∧
      (∀ args body, parseArguments envParseNone itBadArgs = .ok args →
        envParseNone.gateway (itBadArgs.name.getD "") args = .ok body →
        out = formatOutput body) :=
  fc_bridge_always_replies envParseNone itBadArgs rfl (by decide) (by decide)

/-- C10: a detected tool-invocation item lacking a truthy `name` or
`call_id` is silently dropped — the bridge returns with no gateway call, no
`function_call_output` item, and no continuation request. -/
theorem fc_drops_invalid_items (env : BridgeEnv) (item : RtItem)
    (h : truthyS item.name = false ∨ truthyS item.call_id = false) :
    handleFunctionCall env item = { sent := [], gatewayCalled := false } := by
  unfold handleFunctionCall
  have hcond : (!truthyS item.name || !truthyS item.call_id) = true := by
    rcases h with h | h <;> rw [h] <;> simp
  rw [hcond]
  simp

/-- Witness for C10: an item with a `call_id` but no `name` produces no
sends and no gateway call even with the channel open. -/
theorem fc_drops_invalid_items_witness :
    handleFunctionCall envParseNone itNoName = { sent := [], gatewayCalled := false } :=
  fc_drops_invalid_items envParseNone itNoName (Or.inl rfl)

/-! ### Claim theorems about the session lifecycle -/

/-- Recognizer for microphone-track stop actions. -/
def isStopTrackAct : ReleaseAction → Bool
  | .stopTrack _ => true
  | _ => false

/-- Recognizer for sender-track stop actions. -/
def isStopSenderAct : ReleaseAction → Bool
  | .stopSenderTrack _ => true
  | _ => false

lemma filter_stopTrack_self (ts : List Nat) :
    (ts.map ReleaseAction.stopTrack).filter isStopTrackAct =
      ts.map ReleaseAction.stopTrack := by
  induction ts with
  | nil => rfl
  | cons t ts ih => simp [isStopTrackAct, ih]

lemma filter_stopTrack_senderMap (ts : List Nat) :
    (ts.map ReleaseAction.stopSenderTrack).filter isStopTrackAct = [] := by
  induction ts with
  | nil => rfl
  | cons t ts ih => simp [isStopTrackAct, ih]

lemma filter_stopSender_self (ts : List Nat) :
    (ts.map ReleaseAction.stopSenderTrack).filter isStopSenderAct =
      ts.map ReleaseAction.stopSenderTrack := by
  induction ts with
  | nil => rfl
  | cons t ts ih => simp [isStopSenderAct, ih]

lemma filter_stopSender_trackMap (ts : List Nat) :
    (ts.map ReleaseAction.stopTrack).filter isStopSenderAct = [] := by
  induction ts with
  | nil => rfl
  | cons t ts ih => simp [isStopSenderAct, ih]

lemma count_trackMap_eq_zero (ts : List Nat) (a : ReleaseAction)
    (h : ∀ t, a ≠ ReleaseAction.stopTrack t) :
    (ts.map ReleaseAction.stopTrack).count a = 0 := by
  rw [List.count_eq_zero]
  simp only [List.mem_map, not_exists]
  rintro t ⟨_, ht⟩
  exact h t ht.symm

lemma count_senderMap_eq_zero (ts : List Nat) (a : ReleaseAction)
    (h : ∀ t, a ≠ ReleaseAction.stopSenderTrack t) :
    (ts.map ReleaseAction.stopSenderTrack).count a = 0 := by
  rw [List.count_eq_zero]
  simp only [List.mem_map, not_exists]
  rintro t ⟨_, ht⟩
  exact h t ht.symm

lemma count_trackMap_closeDC (ts : List Nat) :
    (ts.map ReleaseAction.stopTrack).count ReleaseAction.closeDataChannel = 0 :=
  count_trackMap_eq_zero ts _ (fun _ h => ReleaseAction.noConfusion h)

lemma count_trackMap_closePC (ts : List Nat) :
    (ts.map ReleaseAction.stopTrack).count ReleaseAction.closePeerConnection = 0 :=
  count_trackMap_eq_zero ts _ (fun _ h => ReleaseAction.noConfusion h)

lemma count_trackMap_removeAudio (ts : List Nat) :
    (ts.map ReleaseAction.stopTrack).count ReleaseAction.removeAudioElement = 0 :=
  count_trackMap_eq_zero ts _ (fun _ h => ReleaseAction.noConfusion h)

lemma count_senderMap_closeDC (ts : List Nat) :
    (ts.map ReleaseAction.stopSenderTrack).count ReleaseAction.closeDataChannel = 0 :=
  count_senderMap_eq_zero ts _ (fun _ h => ReleaseAction.noConfusion h)

lemma count_senderMap_closePC (ts : List Nat) :
    (ts.map ReleaseAction.stopSenderTrack).count ReleaseAction.closePeerConnection = 0 :=
  count_senderMap_eq_zero ts _ (fun _ h => ReleaseAction.noConfusion h)

lemma count_senderMap_removeAudio (ts : List Nat) :
    (ts.map ReleaseAction.stopSenderTrack).count ReleaseAction.removeAudioElement = 0 :=
  count_senderMap_eq_zero ts _ (fun _ h => ReleaseAction.noConfusion h)

/-- C7: `stopSession` is idempotent — a second call returns the identical
state and performs zero release actions — and the first call releases each
acquired resource slot exactly once: one close per present data channel,
one stop per microphone track, one stop per sender-held track, one close
per present peer connection, one removal per attached audio element. -/
theorem stop_session_idempotent (s : ClientState) :
    stopSession (stopSession s).1 = ((stopSession s).1, []) ∧
    ((stopSession s).2.count .closeDataChannel =
      if s.dataChannel.isSome then 1 else 0) ∧
    ((stopSession s).2.filter isStopTrackAct =
      (s.localStreamTracks.getD []).map ReleaseAction.stopTrack) ∧
    ((stopSession s).2.filter isStopSenderAct =
      ((s.pcSenders.getD []).filterMap id).map ReleaseAction.stopSenderTrack) ∧
    ((stopSession s).2.count .closePeerConnection =
      if s.pcSenders.isSome then 1 else 0) ∧
    ((stopSession s).2.count .removeAudioElement =
      if s.audioElemAttached = some true then 1 else 0) := by
  obtain ⟨dc, ls, pcs, ae, a1, a2, a3, a4, a5, a6, et, pt⟩ := s
  refine ⟨rfl, ?_, ?_, ?_, ?_, ?_⟩ <;>
    cases dc <;> cases ls <;> cases pcs <;> rcases ae with _ | ⟨_ | _⟩ <;>
      simp [stopSession, List.count_cons, List.count_append, List.filter_append,
        filter_stopTrack_self, filter_stopTrack_senderMap, filter_stopSender_self,
        filter_stopSender_trackMap, isStopTrackAct, isStopSenderAct,
        count_trackMap_closeDC, count_trackMap_closePC, count_trackMap_removeAudio,
        count_senderMap_closeDC, count_senderMap_closePC, count_senderMap_removeAudio]

/-- C8 as amended: `stopSession` cancels no timers — the pending-timer list
is untouched by `stopSession` (the source contains no `clearTimeout`), and a
surviving executing-tool-clear timer fires as an unconditional
`setExecutingTool(null)`, clearing the `executingTool` state even after a
subsequently started session has set it.  No sequence-number scoping exists
in the code. -/
theorem stop_session_leaves_timers (s : ClientState) (tool : Option String) :
    ((stopSession s).1).pendingTimers = s.pendingTimers ∧
    (fireTimer .executingToolClear
      (setExecutingTool tool (stopSession s).1)).executingTool = none :=
  ⟨rfl, rfl⟩

/-- A running session with one pending executing-tool-clear timer, used to
refute the timer-cancellation claim. -/
def cRunning : ClientState :=
  { dataChannel := some 1
    localStreamTracks := some [10]
    pcSenders := some [some 10]
    audioElemAttached := some true
    isSessionActive := true
    toolsRegistered := true
    registeredTools := ["draw_circle"]
    microphoneActive := true
    isListening := false
    audioBlocked := false
    executingTool := some "old_tool"
    pendingTimers := [.executingToolClear] }

/-- Counterexample to C8: after `stopSession` the session's pending timer is
still pending (nothing cancelled it), and when it later fires it resets the
`executingTool` state that a subsequently started session had set to
`draw_circle` — stale-timer influence is possible, not impossible. -/
theorem stale_timer_counterexample :
    ((stopSession cRunning).1).pendingTimers = [SessionTimer.executingToolClear] ∧
    (setExecutingTool (some "draw_circle")
      (stopSession cRunning).1).executingTool = some "draw_circle" ∧
    (fireTimer .executingToolClear
      (setExecutingTool (some "draw_circle")
        (stopSession cRunning).1)).executingTool = none := by decide

end DukeHack
